import Mathlib

/-!
Shallow embedding of `swift_build_support/products/tensorflow.py` (the two
build-product adapters `TensorFlowSwiftAPIs` and `TensorFlow`) and of the
update-checkout option smoke test `test_update_option.py`.

Each `build` / `install` method is straight-line code whose only effects are
invoking external commands and touching the filesystem.  We embed a method as
the list of effect statements it issues (`List Stmt`), computed from the same
inputs the Python method reads, and give the statements an operational
semantics `runStmts` over a small filesystem model plus an oracle (`World`)
supplying the exit code of every external command.
-/

namespace SwiftBuildSupport

/-- Python `str.startswith`. -/
def pyStartswith (s pre : String) : Bool :=
  List.isPrefixOf pre.data s.data

/-- Python `str.endswith`. -/
def pyEndswith (s suf : String) : Bool :=
  List.isSuffixOf suf.data s.data

/-- Embedding of `os.path.join` for two components (POSIX rules: an absolute second
component wins; otherwise a separator is inserted unless the first component
is empty or already ends in a separator). -/
def pjoin (a b : String) : String :=
  if pyStartswith b "/" then b
  else if a = "" then b
  else if pyEndswith a "/" then a ++ b
  else a ++ "/" ++ b

/-- The fields of the orchestrator-supplied argument object that
`tensorflow.py` reads.  `install_prefix_arg` models `args.install_prefix`. -/
structure Args where
  build_tensorflow_swift_apis : Bool
  install_tensorflow_swift_apis : Bool
  install_destdir : String
  install_prefix_arg : String
deriving DecidableEq, Repr

/-- The toolchain paths `tensorflow.py` reads (`self.toolchain.cmake`,
`self.toolchain.ninja`, `self.toolchain.bazel`). -/
structure Toolchain where
  cmake : String
  ninja : String
  bazel : String
deriving DecidableEq, Repr

/-- The per-product state a `Product` adapter instance carries:
argument object, toolchain, source directory and build directory. -/
structure Product where
  args : Args
  toolchain : Toolchain
  source_dir : String
  build_dir : String
deriving DecidableEq, Repr

/-- Modelled from the spec: `targets.toolchain_path` (module `targets.py`,
not part of the excerpt) resolves the toolchain path from the install
destination directory and install prefix, and `os.path.realpath` resolves a
path to a canonical absolute path.  Both are kept abstract: the adapters use
their results only as opaque path strings. -/
structure Env where
  toolchain_path : String → String → String
  realpath : String → String

/-- One effect statement issued by a build/install method.  `call` is
`shell.call` (the `stdinFrom` field records the command whose stdout is piped
to stdin, `['yes', '']` in the one place it is used); `tryMakedirs` is
`os.makedirs` wrapped in `try: ... except OSError: pass`; `tryUnlink` is
`os.unlink` wrapped the same way; `pushd` is entering `shell.pushd`;
`symlink` is a bare `os.symlink`; `raiseRuntimeError` is `raise
RuntimeError(msg)`. -/
inductive Stmt where
  | call (cmd : List String) (stdinFrom : Option (List String))
  | tryMakedirs (path : String)
  | pushd (path : String)
  | tryUnlink (path : String)
  | symlink (src dst : String)
  | raiseRuntimeError (msg : String)
deriving DecidableEq, Repr

/-- A filesystem entry: directory, regular file, or symbolic link. -/
inductive Entry where
  | dir
  | file
  | link (target : String)
deriving DecidableEq, Repr

/-- The filesystem: an association list from path to entry. -/
abbrev FS := List (String × Entry)

/-- Look a path up in the filesystem. -/
def fsLookup : FS → String → Option Entry
  | [], _ => none
  | (q, e) :: rest, p => if q = p then some e else fsLookup rest p

/-- Remove a path from the filesystem (no-op when absent). -/
def fsErase : FS → String → FS
  | [], _ => []
  | (q, e) :: rest, p =>
      if q = p then fsErase rest p else (q, e) :: fsErase rest p

/-- Bind a path to an entry, replacing any previous binding. -/
def fsInsert (fs : FS) (p : String) (e : Entry) : FS :=
  (p, e) :: fsErase fs p

/-- The environment a run of the statements observes: the exit code of each
external command, and whether `os.makedirs` fails with a spurious `OSError`
(e.g. permission denied) on a given path even though the path is absent. -/
structure World where
  exit : List String → Nat
  makedirsFault : String → Bool

/-- The Python exceptions that can escape a method here:
`subprocess.CalledProcessError` (raised by `shell.call` on a non-zero exit),
`RuntimeError`, and the `FileExistsError` an unguarded `os.symlink` raises
when the link name already exists. -/
inductive Err where
  | calledProcessError (cmd : List String) (code : Nat)
  | runtimeError (msg : String)
  | fileExistsError (path : String)
deriving DecidableEq, Repr

/-- Execute one statement.  Modelled from the spec for `shell.call`
(module `shell.py`, not part of the excerpt): it propagates the external
tool's failure, raising on a non-zero exit status.  `os.makedirs` raises
`OSError` when the path already exists or on a spurious fault; the `try`
wrapper discards the error.  `os.unlink` raises `OSError` when the path is
absent; the `try` wrapper discards it, so the net effect is erasure.
`os.symlink` raises when the link name already exists. -/
def exec1 (w : World) (fs : FS) : Stmt → Except Err FS
  | .call cmd _ =>
      if w.exit cmd = 0 then .ok fs
      else .error (.calledProcessError cmd (w.exit cmd))
  | .tryMakedirs p =>
      .ok (if (fsLookup fs p).isSome || w.makedirsFault p then fs
           else fsInsert fs p .dir)
  | .pushd _ => .ok fs
  | .tryUnlink p => .ok (fsErase fs p)
  | .symlink src dst =>
      if (fsLookup fs dst).isSome then .error (.fileExistsError dst)
      else .ok (fsInsert fs dst (.link src))
  | .raiseRuntimeError m => .error (.runtimeError m)

/-- Run a statement list: returns the statements actually attempted, in
order, and either the final filesystem or the first error.  A raised
exception stops execution: nothing after the failing statement runs. -/
def runStmts (w : World) : List Stmt → FS → List Stmt × Except Err FS
  | [], fs => ([], .ok fs)
  | s :: rest, fs =>
      match exec1 w fs s with
      | .ok fs' =>
          let out := runStmts w rest fs'
          (s :: out.1, out.2)
      | .error e => ([s], .error e)

theorem fsLookup_fsErase_self (fs : FS) (p : String) :
    fsLookup (fsErase fs p) p = none := by
  induction fs with
  | nil => rfl
  | cons hd tl ih =>
      by_cases h : hd.1 = p
      · simpa [fsErase, h] using ih
      · simp [fsErase, fsLookup, h, ih]

theorem fsLookup_fsInsert_self (fs : FS) (p : String) (e : Entry) :
    fsLookup (fsInsert fs p e) p = some e := by
  simp [fsInsert, fsLookup]

theorem fsErase_fsErase (fs : FS) (p : String) :
    fsErase (fsErase fs p) p = fsErase fs p := by
  induction fs with
  | nil => rfl
  | cons hd tl ih =>
      by_cases h : hd.1 = p
      · simpa [fsErase, h] using ih
      · simp [fsErase, h, ih]

theorem fsErase_fsInsert_self (fs : FS) (p : String) (e : Entry) :
    fsErase (fsInsert fs p e) p = fsErase fs p := by
  simp [fsInsert, fsErase, fsErase_fsErase]

namespace TensorFlowSwiftAPIs

/-- Method `TensorFlowSwiftAPIs.should_build`: returns
`self.args.build_tensorflow_swift_apis` for every host target. -/
def should_build (p : Product) (_host_target : String) : Bool :=
  p.args.build_tensorflow_swift_apis

/-- The argument list of the CMake configure invocation in
`TensorFlowSwiftAPIs.build`, parameterised by the platform library name. -/
def cmakeConfigureArgs (env : Env) (p : Product) (lib_name : String) :
    List String :=
  let toolchain_dir :=
    env.toolchain_path p.args.install_destdir p.args.install_prefix_arg
  let swiftc := pjoin (pjoin (pjoin toolchain_dir "usr") "bin") "swiftc"
  let tensorflow_source_dir :=
    env.realpath (pjoin (pjoin p.source_dir "..") "tensorflow")
  [p.toolchain.cmake,
   "-G", "Ninja",
   "-D", "BUILD_SHARED_LIBS=YES",
   "-D", "CMAKE_INSTALL_PREFIX=" ++ p.args.install_destdir ++ "/usr",
   "-D", "CMAKE_MAKE_PROGRAM=" ++ p.toolchain.ninja,
   "-D", "CMAKE_Swift_COMPILER=" ++ swiftc,
   "-D", "TensorFlow_INCLUDE_DIR=" ++ tensorflow_source_dir,
   "-D", "TensorFlow_LIBRARY=" ++
     pjoin (pjoin (pjoin tensorflow_source_dir "bazel-bin") "tensorflow")
       lib_name,
   "-D", "CMAKE_Swift_FLAGS=" ++ "-L" ++
     pjoin (pjoin tensorflow_source_dir "bazel-bin") "tensorflow",
   "-B", p.build_dir,
   "-S", p.source_dir]

/-- Method `TensorFlowSwiftAPIs.build` as its statement list: dispatch on the host
target prefix to pick the library name (raising `RuntimeError` otherwise),
create the build directory tolerating `OSError`, enter the build directory,
run the CMake configure invocation, then `cmake --build`. -/
def buildProg (env : Env) (p : Product) (host_target : String) : List Stmt :=
  let rest := fun lib_name =>
    [Stmt.tryMakedirs p.build_dir,
     Stmt.pushd p.build_dir,
     Stmt.call (cmakeConfigureArgs env p lib_name) none,
     Stmt.call [p.toolchain.cmake, "--build", p.build_dir] none]
  if pyStartswith host_target "macosx" then rest "libtensorflow.dylib"
  else if pyStartswith host_target "linux" then rest "libtensorflow.so"
  else [Stmt.raiseRuntimeError ("Unknown host target " ++ host_target)]

/-- Method `TensorFlowSwiftAPIs.should_test`: always `False`. -/
def should_test (_p : Product) (_host_target : String) : Bool := false

/-- Method `TensorFlowSwiftAPIs.test`: a no-op. -/
def testProg (_p : Product) (_host_target : String) : List Stmt := []

/-- Method `TensorFlowSwiftAPIs.should_install`: returns
`self.args.install_tensorflow_swift_apis`. -/
def should_install (p : Product) (_host_target : String) : Bool :=
  p.args.install_tensorflow_swift_apis

/-- Method `TensorFlowSwiftAPIs.install` as its statement list:
`cmake --build <build_dir> --target install`. -/
def installProg (p : Product) (_host_target : String) : List Stmt :=
  [Stmt.call [p.toolchain.cmake, "--build", p.build_dir,
              "--target", "install"] none]

end TensorFlowSwiftAPIs

namespace TensorFlow

/-- Method `TensorFlow.should_build`: returns
`self.args.build_tensorflow_swift_apis` for every host target. -/
def should_build (p : Product) (_host_target : String) : Bool :=
  p.args.build_tensorflow_swift_apis

/-- The symlink-creation step at the end of `TensorFlow.build`: remove the
unsuffixed name in `<source_dir>/bazel-bin/tensorflow` tolerating `OSError`,
then symlink it to the version-suffixed name. -/
def symlinkStep (source_dir suffixed_lib_name unsuffixed_lib_name : String) :
    List Stmt :=
  let out_dir := pjoin (pjoin source_dir "bazel-bin") "tensorflow"
  [Stmt.tryUnlink (pjoin out_dir unsuffixed_lib_name),
   Stmt.symlink (pjoin out_dir suffixed_lib_name)
     (pjoin out_dir unsuffixed_lib_name)]

/-- The bazel invocation of `TensorFlow.build`. -/
def bazelArgs (p : Product) : List String :=
  [p.toolchain.bazel, "build", "-c", "opt",
   "--define", "framework_shared_object=false",
   "//tensorflow:tensorflow"]

/-- Method `TensorFlow.build` as its statement list: run `<source_dir>/configure`
with stdin piped from `yes ''`, run bazel, then dispatch on the host target
prefix to create the library symlink (raising `RuntimeError` for an unknown
target). -/
def buildProg (p : Product) (host_target : String) : List Stmt :=
  [Stmt.call [pjoin p.source_dir "configure"] (some ["yes", ""]),
   Stmt.call (bazelArgs p) none]
  ++ (if pyStartswith host_target "macosx" then
        symlinkStep p.source_dir "libtensorflow.2.1.0.dylib"
          "libtensorflow.dylib"
      else if pyStartswith host_target "linux" then
        symlinkStep p.source_dir "libtensorflow.so.2.1.0" "libtensorflow.so"
      else
        [Stmt.raiseRuntimeError ("unknown host target " ++ host_target)])

/-- Method `TensorFlow.should_test`: always `False`. -/
def should_test (_p : Product) (_host_target : String) : Bool := false

/-- Method `TensorFlow.test`: a no-op. -/
def testProg (_p : Product) (_host_target : String) : List Stmt := []

/-- Method `TensorFlow.should_install`: always `False`, regardless of arguments. -/
def should_install (_p : Product) (_host_target : String) : Bool := false

/-- Method `TensorFlow.install`: a no-op (`pass`). -/
def installProg (_p : Product) (_host_target : String) : List Stmt := []

end TensorFlow

/-- The paths the update-checkout smoke test is run with: the checkout
script, the mock config file, and the mock source root. -/
structure MockEnv where
  update_checkout_path : String
  config_path : String
  source_root : String
deriving DecidableEq, Repr

/-- Modelled from the spec: `scheme_mock.SchemeMockTestCase.call` (module
`scheme_mock.py`, not part of the excerpt) invokes the given command line as
a subprocess and asserts a zero exit status, so the test passes exactly when
the invocation exits with status zero. -/
def schemeMockCallPasses (w : World) (cmd : List String) : Bool :=
  w.exit cmd == 0

/-- The command lines `UpdateOptionTestCase.test_update_option` issues. -/
def testUpdateOptionInvocations (m : MockEnv) : List (List String) :=
  [[m.update_checkout_path,
    "--config", m.config_path,
    "--source-root", m.source_root,
    "--clone", "--update"]]

/-- Whether `test_update_option` passes: every issued invocation must exit
with status zero. -/
def testUpdateOptionPasses (w : World) (m : MockEnv) : Bool :=
  (testUpdateOptionInvocations m).all (schemeMockCallPasses w)

/-- A statement list is free of the `RuntimeError`-raising statement: the
host-target dispatch accepted the target. -/
def acceptsTarget (prog : List Stmt) : Bool :=
  prog.all fun s =>
    match s with
    | .raiseRuntimeError _ => false
    | _ => true

/-! Concrete sample inputs used by the witness theorems. -/

def sampleArgs : Args :=
  { build_tensorflow_swift_apis := true
    install_tensorflow_swift_apis := true
    install_destdir := "/dest"
    install_prefix_arg := "/pfx" }

def sampleToolchain : Toolchain :=
  { cmake := "/tc/cmake", ninja := "/tc/ninja", bazel := "/tc/bazel" }

def sampleProduct : Product :=
  { args := sampleArgs
    toolchain := sampleToolchain
    source_dir := "/s/tf"
    build_dir := "/b/tf" }

def sampleEnv : Env :=
  { toolchain_path := fun d p => d ++ p, realpath := fun s => s }

/-- A world where every command succeeds and no directory-creation fault
occurs. -/
def okWorld : World := ⟨fun _ => 0, fun _ => false⟩

/-- A world where exactly the given command exits with status 1. -/
def failWorld (bad : List String) : World :=
  ⟨fun c => if c = bad then 1 else 0, fun _ => false⟩

/-- A world where every command succeeds but `os.makedirs` fails with an
`OSError` on every path. -/
def faultWorld : World := ⟨fun _ => 0, fun _ => true⟩

/-- C8: Both adapters are gated by the same single configuration flag:
`TensorFlowSwiftAPIs.should_build` and `TensorFlow.should_build` each return
`args.build_tensorflow_swift_apis` for every host target, so no separate
flag controls the runtime-library build. -/
theorem should_build_same_flag (p : Product) (host_target : String) :
    TensorFlowSwiftAPIs.should_build p host_target =
      p.args.build_tensorflow_swift_apis ∧
    TensorFlow.should_build p host_target =
      p.args.build_tensorflow_swift_apis ∧
    TensorFlow.should_build p host_target =
      TensorFlowSwiftAPIs.should_build p host_target :=
  ⟨rfl, rfl, rfl⟩

/-- C9: The runtime-library adapter is never installed: for every host
target and every argument configuration, `TensorFlow.should_install`
returns `False` and `TensorFlow.install` performs no action. -/
theorem tensorflow_never_installed (p : Product) (host_target : String) :
    TensorFlow.should_install p host_target = false ∧
    TensorFlow.installProg p host_target = [] :=
  ⟨rfl, rfl⟩

/-- C7: The update-option smoke test invokes the checkout-management script
exactly once, with exactly the arguments `--config <config path>
--source-root <source root> --clone --update`, and passes exactly when that
invocation exits with status zero. -/
theorem test_update_option_spec (m : MockEnv) (w : World) :
    testUpdateOptionInvocations m =
      [[m.update_checkout_path,
        "--config", m.config_path,
        "--source-root", m.source_root,
        "--clone", "--update"]] ∧
    (testUpdateOptionPasses w m = true ↔
      w.exit [m.update_checkout_path,
              "--config", m.config_path,
              "--source-root", m.source_root,
              "--clone", "--update"] = 0) := by
  refine ⟨rfl, ?_⟩
  simp [testUpdateOptionPasses, testUpdateOptionInvocations,
        schemeMockCallPasses]

/-- C4: The symlink-creation step of `TensorFlow.build` is idempotent: on
any filesystem it completes without error with the unsuffixed name bound to
a link to the suffixed name (a pre-existing entry at the unsuffixed name is
first removed, and when no entry exists the removal failure is ignored),
and running the step again from the resulting state leaves the state
unchanged. -/
theorem symlink_step_idempotent (w : World) (fs : FS)
    (source_dir suffixed_lib_name unsuffixed_lib_name : String) :
    runStmts w
      (TensorFlow.symlinkStep source_dir suffixed_lib_name
        unsuffixed_lib_name) fs =
      ([Stmt.tryUnlink
          (pjoin (pjoin (pjoin source_dir "bazel-bin") "tensorflow")
            unsuffixed_lib_name),
        Stmt.symlink
          (pjoin (pjoin (pjoin source_dir "bazel-bin") "tensorflow")
            suffixed_lib_name)
          (pjoin (pjoin (pjoin source_dir "bazel-bin") "tensorflow")
            unsuffixed_lib_name)],
       .ok (fsInsert
         (fsErase fs
           (pjoin (pjoin (pjoin source_dir "bazel-bin") "tensorflow")
             unsuffixed_lib_name))
         (pjoin (pjoin (pjoin source_dir "bazel-bin") "tensorflow")
           unsuffixed_lib_name)
         (.link (pjoin (pjoin (pjoin source_dir "bazel-bin") "tensorflow")
           suffixed_lib_name)))) ∧
    fsLookup
      (fsInsert
        (fsErase fs
          (pjoin (pjoin (pjoin source_dir "bazel-bin") "tensorflow")
            unsuffixed_lib_name))
        (pjoin (pjoin (pjoin source_dir "bazel-bin") "tensorflow")
          unsuffixed_lib_name)
        (.link (pjoin (pjoin (pjoin source_dir "bazel-bin") "tensorflow")
          suffixed_lib_name)))
      (pjoin (pjoin (pjoin source_dir "bazel-bin") "tensorflow")
        unsuffixed_lib_name) =
      some (.link (pjoin (pjoin (pjoin source_dir "bazel-bin") "tensorflow")
        suffixed_lib_name)) ∧
    (runStmts w
      (TensorFlow.symlinkStep source_dir suffixed_lib_name
        unsuffixed_lib_name)
      (fsInsert
        (fsErase fs
          (pjoin (pjoin (pjoin source_dir "bazel-bin") "tensorflow")
            unsuffixed_lib_name))
        (pjoin (pjoin (pjoin source_dir "bazel-bin") "tensorflow")
          unsuffixed_lib_name)
        (.link (pjoin (pjoin (pjoin source_dir "bazel-bin") "tensorflow")
          suffixed_lib_name)))).2 =
      .ok (fsInsert
        (fsErase fs
          (pjoin (pjoin (pjoin source_dir "bazel-bin") "tensorflow")
            unsuffixed_lib_name))
        (pjoin (pjoin (pjoin source_dir "bazel-bin") "tensorflow")
          unsuffixed_lib_name)
        (.link (pjoin (pjoin (pjoin source_dir "bazel-bin") "tensorflow")
          suffixed_lib_name))) := by
  refine ⟨?_, ?_, ?_⟩
  · simp [TensorFlow.symlinkStep, runStmts, exec1, fsLookup_fsErase_self]
  · exact fsLookup_fsInsert_self _ _ _
  · simp [TensorFlow.symlinkStep, runStmts, exec1, fsInsert, fsErase,
      fsErase_fsErase, fsLookup_fsErase_self]

/-- C1: For a host target starting with `macosx` (resp., starting with
`linux` after failing the `macosx` test, mirroring the `elif`),
`TensorFlow.build` performs exactly, in order: (1) the configure script at
`<source_dir>/configure` with stdin fed from `yes ''`; (2) bazel with
exactly `build -c opt --define framework_shared_object=false
//tensorflow:tensorflow`; (3) removal (tolerating absence) of the
unsuffixed library name in `<source_dir>/bazel-bin/tensorflow` followed by
a symlink from the version-suffixed filename (`libtensorflow.2.1.0.dylib` /
`libtensorflow.so.2.1.0`) to the unsuffixed name (`libtensorflow.dylib` /
`libtensorflow.so`). -/
theorem tensorflow_build_exact_steps (p : Product) (host_target : String) :
    (pyStartswith host_target "macosx" = true →
      TensorFlow.buildProg p host_target =
        [Stmt.call [pjoin p.source_dir "configure"] (some ["yes", ""]),
         Stmt.call [p.toolchain.bazel, "build", "-c", "opt",
           "--define", "framework_shared_object=false",
           "//tensorflow:tensorflow"] none,
         Stmt.tryUnlink
           (pjoin (pjoin (pjoin p.source_dir "bazel-bin") "tensorflow")
             "libtensorflow.dylib"),
         Stmt.symlink
           (pjoin (pjoin (pjoin p.source_dir "bazel-bin") "tensorflow")
             "libtensorflow.2.1.0.dylib")
           (pjoin (pjoin (pjoin p.source_dir "bazel-bin") "tensorflow")
             "libtensorflow.dylib")]) ∧
    (pyStartswith host_target "macosx" = false →
     pyStartswith host_target "linux" = true →
      TensorFlow.buildProg p host_target =
        [Stmt.call [pjoin p.source_dir "configure"] (some ["yes", ""]),
         Stmt.call [p.toolchain.bazel, "build", "-c", "opt",
           "--define", "framework_shared_object=false",
           "//tensorflow:tensorflow"] none,
         Stmt.tryUnlink
           (pjoin (pjoin (pjoin p.source_dir "bazel-bin") "tensorflow")
             "libtensorflow.so"),
         Stmt.symlink
           (pjoin (pjoin (pjoin p.source_dir "bazel-bin") "tensorflow")
             "libtensorflow.so.2.1.0")
           (pjoin (pjoin (pjoin p.source_dir "bazel-bin") "tensorflow")
             "libtensorflow.so")]) := by
  constructor
  · intro hm
    simp [TensorFlow.buildProg, TensorFlow.bazelArgs, TensorFlow.symlinkStep,
      hm]
  · intro hm hl
    simp [TensorFlow.buildProg, TensorFlow.bazelArgs, TensorFlow.symlinkStep,
      hm, hl]

/-- Witness for C1 at concrete macosx and linux host targets. -/
theorem tensorflow_build_exact_steps_witness :
    (pyStartswith "macosx-x86_64" "macosx" = true ∧
      TensorFlow.buildProg sampleProduct "macosx-x86_64" =
        [Stmt.call [pjoin sampleProduct.source_dir "configure"]
           (some ["yes", ""]),
         Stmt.call [sampleProduct.toolchain.bazel, "build", "-c", "opt",
           "--define", "framework_shared_object=false",
           "//tensorflow:tensorflow"] none,
         Stmt.tryUnlink
           (pjoin (pjoin (pjoin sampleProduct.source_dir "bazel-bin")
             "tensorflow") "libtensorflow.dylib"),
         Stmt.symlink
           (pjoin (pjoin (pjoin sampleProduct.source_dir "bazel-bin")
             "tensorflow") "libtensorflow.2.1.0.dylib")
           (pjoin (pjoin (pjoin sampleProduct.source_dir "bazel-bin")
             "tensorflow") "libtensorflow.dylib")]) ∧
    (pyStartswith "linux-x86_64" "macosx" = false ∧
     pyStartswith "linux-x86_64" "linux" = true ∧
      TensorFlow.buildProg sampleProduct "linux-x86_64" =
        [Stmt.call [pjoin sampleProduct.source_dir "configure"]
           (some ["yes", ""]),
         Stmt.call [sampleProduct.toolchain.bazel, "build", "-c", "opt",
           "--define", "framework_shared_object=false",
           "//tensorflow:tensorflow"] none,
         Stmt.tryUnlink
           (pjoin (pjoin (pjoin sampleProduct.source_dir "bazel-bin")
             "tensorflow") "libtensorflow.so"),
         Stmt.symlink
           (pjoin (pjoin (pjoin sampleProduct.source_dir "bazel-bin")
             "tensorflow") "libtensorflow.so.2.1.0")
           (pjoin (pjoin (pjoin sampleProduct.source_dir "bazel-bin")
             "tensorflow") "libtensorflow.so")]) :=
  ⟨⟨by decide,
    (tensorflow_build_exact_steps sampleProduct "macosx-x86_64").1
      (by decide)⟩,
   ⟨by decide, by decide,
    (tensorflow_build_exact_steps sampleProduct "linux-x86_64").2
      (by decide) (by decide)⟩⟩

/-- C2: For a host target starting with `macosx` (resp., starting with
`linux` after failing the `macosx` test), `TensorFlowSwiftAPIs.build`
creates the build directory, enters it, invokes CMake with generator Ninja
and exactly the configuration variables `BUILD_SHARED_LIBS=YES`,
`CMAKE_INSTALL_PREFIX=<install_destdir>/usr`, `CMAKE_MAKE_PROGRAM=<ninja>`,
`CMAKE_Swift_COMPILER=<toolchain path>/usr/bin/swiftc`,
`TensorFlow_INCLUDE_DIR=<resolved tensorflow source dir>`,
`TensorFlow_LIBRARY=<tensorflow source dir>/bazel-bin/tensorflow/<platform
library name>`, `CMAKE_Swift_FLAGS=-L<tensorflow source dir>/
bazel-bin/tensorflow`, plus `-B <build_dir>` and `-S <source_dir>`, then
invokes `cmake --build <build_dir>`; and `should_install` returns the
`install_tensorflow_swift_apis` flag while `install` invokes
`cmake --build <build_dir> --target install`. -/
theorem tensorflow_swift_apis_build_install_steps
    (env : Env) (p : Product) (host_target : String) :
    (pyStartswith host_target "macosx" = true →
      TensorFlowSwiftAPIs.buildProg env p host_target =
        [Stmt.tryMakedirs p.build_dir,
         Stmt.pushd p.build_dir,
         Stmt.call
           [p.toolchain.cmake,
            "-G", "Ninja",
            "-D", "BUILD_SHARED_LIBS=YES",
            "-D", "CMAKE_INSTALL_PREFIX=" ++ p.args.install_destdir ++
              "/usr",
            "-D", "CMAKE_MAKE_PROGRAM=" ++ p.toolchain.ninja,
            "-D", "CMAKE_Swift_COMPILER=" ++
              pjoin (pjoin (pjoin
                (env.toolchain_path p.args.install_destdir
                  p.args.install_prefix_arg) "usr") "bin") "swiftc",
            "-D", "TensorFlow_INCLUDE_DIR=" ++
              env.realpath (pjoin (pjoin p.source_dir "..") "tensorflow"),
            "-D", "TensorFlow_LIBRARY=" ++
              pjoin (pjoin (pjoin
                (env.realpath (pjoin (pjoin p.source_dir "..") "tensorflow"))
                "bazel-bin") "tensorflow") "libtensorflow.dylib",
            "-D", "CMAKE_Swift_FLAGS=" ++ "-L" ++
              pjoin (pjoin
                (env.realpath (pjoin (pjoin p.source_dir "..") "tensorflow"))
                "bazel-bin") "tensorflow",
            "-B", p.build_dir,
            "-S", p.source_dir] none,
         Stmt.call [p.toolchain.cmake, "--build", p.build_dir] none]) ∧
    (pyStartswith host_target "macosx" = false →
     pyStartswith host_target "linux" = true →
      TensorFlowSwiftAPIs.buildProg env p host_target =
        [Stmt.tryMakedirs p.build_dir,
         Stmt.pushd p.build_dir,
         Stmt.call
           [p.toolchain.cmake,
            "-G", "Ninja",
            "-D", "BUILD_SHARED_LIBS=YES",
            "-D", "CMAKE_INSTALL_PREFIX=" ++ p.args.install_destdir ++
              "/usr",
            "-D", "CMAKE_MAKE_PROGRAM=" ++ p.toolchain.ninja,
            "-D", "CMAKE_Swift_COMPILER=" ++
              pjoin (pjoin (pjoin
                (env.toolchain_path p.args.install_destdir
                  p.args.install_prefix_arg) "usr") "bin") "swiftc",
            "-D", "TensorFlow_INCLUDE_DIR=" ++
              env.realpath (pjoin (pjoin p.source_dir "..") "tensorflow"),
            "-D", "TensorFlow_LIBRARY=" ++
              pjoin (pjoin (pjoin
                (env.realpath (pjoin (pjoin p.source_dir "..") "tensorflow"))
                "bazel-bin") "tensorflow") "libtensorflow.so",
            "-D", "CMAKE_Swift_FLAGS=" ++ "-L" ++
              pjoin (pjoin
                (env.realpath (pjoin (pjoin p.source_dir "..") "tensorflow"))
                "bazel-bin") "tensorflow",
            "-B", p.build_dir,
            "-S", p.source_dir] none,
         Stmt.call [p.toolchain.cmake, "--build", p.build_dir] none]) ∧
    TensorFlowSwiftAPIs.should_install p host_target =
      p.args.install_tensorflow_swift_apis ∧
    TensorFlowSwiftAPIs.installProg p host_target =
      [Stmt.call [p.toolchain.cmake, "--build", p.build_dir,
        "--target", "install"] none] := by
  refine ⟨?_, ?_, rfl, rfl⟩
  · intro hm
    simp [TensorFlowSwiftAPIs.buildProg,
      TensorFlowSwiftAPIs.cmakeConfigureArgs, hm]
  · intro hm hl
    simp [TensorFlowSwiftAPIs.buildProg,
      TensorFlowSwiftAPIs.cmakeConfigureArgs, hm, hl]

/-- Witness for C2 at a concrete macosx host target. -/
theorem tensorflow_swift_apis_build_install_steps_witness :
    pyStartswith "macosx-x86_64" "macosx" = true ∧
    TensorFlowSwiftAPIs.buildProg sampleEnv sampleProduct "macosx-x86_64" =
      [Stmt.tryMakedirs sampleProduct.build_dir,
       Stmt.pushd sampleProduct.build_dir,
       Stmt.call
         [sampleProduct.toolchain.cmake,
          "-G", "Ninja",
          "-D", "BUILD_SHARED_LIBS=YES",
          "-D", "CMAKE_INSTALL_PREFIX=" ++
            sampleProduct.args.install_destdir ++ "/usr",
          "-D", "CMAKE_MAKE_PROGRAM=" ++ sampleProduct.toolchain.ninja,
          "-D", "CMAKE_Swift_COMPILER=" ++
            pjoin (pjoin (pjoin
              (sampleEnv.toolchain_path sampleProduct.args.install_destdir
                sampleProduct.args.install_prefix_arg) "usr") "bin")
              "swiftc",
          "-D", "TensorFlow_INCLUDE_DIR=" ++
            sampleEnv.realpath
              (pjoin (pjoin sampleProduct.source_dir "..") "tensorflow"),
          "-D", "TensorFlow_LIBRARY=" ++
            pjoin (pjoin (pjoin
              (sampleEnv.realpath
                (pjoin (pjoin sampleProduct.source_dir "..") "tensorflow"))
              "bazel-bin") "tensorflow") "libtensorflow.dylib",
          "-D", "CMAKE_Swift_FLAGS=" ++ "-L" ++
            pjoin (pjoin
              (sampleEnv.realpath
                (pjoin (pjoin sampleProduct.source_dir "..") "tensorflow"))
              "bazel-bin") "tensorflow",
          "-B", sampleProduct.build_dir,
          "-S", sampleProduct.source_dir] none,
       Stmt.call [sampleProduct.toolchain.cmake, "--build",
         sampleProduct.build_dir] none] :=
  ⟨by decide,
   (tensorflow_swift_apis_build_install_steps sampleEnv sampleProduct
     "macosx-x86_64").1 (by decide)⟩

/-- C3: For a host target starting with neither `macosx` nor `linux`,
`TensorFlowSwiftAPIs.build` raises `RuntimeError` immediately, and
`TensorFlow.build` (whose external calls precede the dispatch) raises
`RuntimeError` once those calls succeed; every host target carrying one of
the two prefixes is accepted by the dispatch (the issued statements contain
no `RuntimeError`). -/
theorem unknown_host_target_raises
    (env : Env) (p : Product) (host_target : String) (w : World) (fs : FS) :
    (pyStartswith host_target "macosx" = false →
     pyStartswith host_target "linux" = false →
      (runStmts w (TensorFlowSwiftAPIs.buildProg env p host_target) fs).2 =
        .error (.runtimeError ("Unknown host target " ++ host_target)) ∧
      ((∀ cmd, w.exit cmd = 0) →
        (runStmts w (TensorFlow.buildProg p host_target) fs).2 =
          .error (.runtimeError ("unknown host target " ++ host_target)))) ∧
    ((pyStartswith host_target "macosx" = true ∨
      pyStartswith host_target "linux" = true) →
      acceptsTarget (TensorFlowSwiftAPIs.buildProg env p host_target) =
        true ∧
      acceptsTarget (TensorFlow.buildProg p host_target) = true) := by
  constructor
  · intro hm hl
    constructor
    · simp [TensorFlowSwiftAPIs.buildProg, hm, hl, runStmts, exec1]
    · intro hall
      simp [TensorFlow.buildProg, hm, hl, runStmts, exec1, hall]
  · intro hpre
    rcases hpre with hm | hl
    · constructor
      · simp [acceptsTarget, TensorFlowSwiftAPIs.buildProg, hm]
      · simp [acceptsTarget, TensorFlow.buildProg, TensorFlow.symlinkStep,
          hm]
    · rcases hcm : pyStartswith host_target "macosx" with _ | _
      · constructor
        · simp [acceptsTarget, TensorFlowSwiftAPIs.buildProg, hcm, hl]
        · simp [acceptsTarget, TensorFlow.buildProg, TensorFlow.symlinkStep,
            hcm, hl]
      · constructor
        · simp [acceptsTarget, TensorFlowSwiftAPIs.buildProg, hcm]
        · simp [acceptsTarget, TensorFlow.buildProg, TensorFlow.symlinkStep,
            hcm]

/-- Witness for C3 at the concrete unknown host target `windows-x86_64`
and the accepted target `linux-x86_64`. -/
theorem unknown_host_target_raises_witness :
    (pyStartswith "windows-x86_64" "macosx" = false ∧
     pyStartswith "windows-x86_64" "linux" = false ∧
     (runStmts okWorld
       (TensorFlowSwiftAPIs.buildProg sampleEnv sampleProduct
         "windows-x86_64") []).2 =
       .error (.runtimeError ("Unknown host target " ++ "windows-x86_64")) ∧
     (runStmts okWorld
       (TensorFlow.buildProg sampleProduct "windows-x86_64") []).2 =
       .error (.runtimeError ("unknown host target " ++ "windows-x86_64"))) ∧
    (acceptsTarget
      (TensorFlow.buildProg sampleProduct "linux-x86_64") = true) :=
  ⟨⟨by decide, by decide,
    ((unknown_host_target_raises sampleEnv sampleProduct "windows-x86_64"
        okWorld []).1 (by decide) (by decide)).1,
    ((unknown_host_target_raises sampleEnv sampleProduct "windows-x86_64"
        okWorld []).1 (by decide) (by decide)).2 (fun _ => rfl)⟩,
   ((unknown_host_target_raises sampleEnv sampleProduct "linux-x86_64"
       okWorld []).2 (Or.inr (by decide))).2⟩

/-- C5: The build-directory creation step of `TensorFlowSwiftAPIs.build` is
idempotent: when `build_dir` already exists, the `OSError` raised by
`os.makedirs` is caught and ignored, the step succeeds leaving the
filesystem unchanged, and the build proceeds (the attempted statements
begin with the directory creation, the directory change, and the CMake
configure invocation). -/
theorem makedirs_existing_dir_proceeds
    (env : Env) (p : Product) (host_target : String) (w : World) (fs : FS)
    (hm : pyStartswith host_target "macosx" = true)
    (hex : (fsLookup fs p.build_dir).isSome = true) :
    exec1 w fs (Stmt.tryMakedirs p.build_dir) = .ok fs ∧
    (runStmts w (TensorFlowSwiftAPIs.buildProg env p host_target) fs).1.take
        3 =
      [Stmt.tryMakedirs p.build_dir,
       Stmt.pushd p.build_dir,
       Stmt.call
         (TensorFlowSwiftAPIs.cmakeConfigureArgs env p "libtensorflow.dylib")
         none] := by
  constructor
  · simp [exec1, hex]
  · by_cases h3 :
      w.exit (TensorFlowSwiftAPIs.cmakeConfigureArgs env p
        "libtensorflow.dylib") = 0 <;>
    by_cases h4 : w.exit [p.toolchain.cmake, "--build", p.build_dir] = 0 <;>
    simp [TensorFlowSwiftAPIs.buildProg, hm, runStmts, exec1, hex, h3, h4]

/-- Witness for C5: the build directory already exists, yet the step
succeeds and the CMake invocation is reached. -/
theorem makedirs_existing_dir_proceeds_witness :
    pyStartswith "macosx-x86_64" "macosx" = true ∧
    (fsLookup [("/b/tf", Entry.dir)] sampleProduct.build_dir).isSome =
      true ∧
    exec1 okWorld [("/b/tf", Entry.dir)]
      (Stmt.tryMakedirs sampleProduct.build_dir) =
      .ok [("/b/tf", Entry.dir)] ∧
    (runStmts okWorld
      (TensorFlowSwiftAPIs.buildProg sampleEnv sampleProduct
        "macosx-x86_64")
      [("/b/tf", Entry.dir)]).1.take 3 =
      [Stmt.tryMakedirs sampleProduct.build_dir,
       Stmt.pushd sampleProduct.build_dir,
       Stmt.call
         (TensorFlowSwiftAPIs.cmakeConfigureArgs sampleEnv sampleProduct
           "libtensorflow.dylib") none] :=
  ⟨by decide, by decide,
   (makedirs_existing_dir_proceeds sampleEnv sampleProduct "macosx-x86_64"
     okWorld [("/b/tf", Entry.dir)] (by decide) (by decide)).1,
   (makedirs_existing_dir_proceeds sampleEnv sampleProduct "macosx-x86_64"
     okWorld [("/b/tf", Entry.dir)] (by decide) (by decide)).2⟩

/-- C10: The directory-creation step of `TensorFlowSwiftAPIs.build`
silently swallows every `OSError` raised by `os.makedirs`, not only the
already-exists case: on a spurious fault (e.g. permission denied) with the
directory absent, the exception is discarded, the directory is not created,
and the build proceeds to change into `build_dir` and invoke CMake. -/
theorem makedirs_swallows_every_oserror
    (env : Env) (p : Product) (host_target : String) (w : World) (fs : FS)
    (hm : pyStartswith host_target "macosx" = true)
    (hfault : w.makedirsFault p.build_dir = true)
    (habsent : fsLookup fs p.build_dir = none) :
    exec1 w fs (Stmt.tryMakedirs p.build_dir) = .ok fs ∧
    (runStmts w (TensorFlowSwiftAPIs.buildProg env p host_target) fs).1.take
        3 =
      [Stmt.tryMakedirs p.build_dir,
       Stmt.pushd p.build_dir,
       Stmt.call
         (TensorFlowSwiftAPIs.cmakeConfigureArgs env p "libtensorflow.dylib")
         none] := by
  constructor
  · simp [exec1, hfault, habsent]
  · by_cases h3 :
      w.exit (TensorFlowSwiftAPIs.cmakeConfigureArgs env p
        "libtensorflow.dylib") = 0 <;>
    by_cases h4 : w.exit [p.toolchain.cmake, "--build", p.build_dir] = 0 <;>
    simp [TensorFlowSwiftAPIs.buildProg, hm, runStmts, exec1, hfault,
      habsent, h3, h4]

/-- Witness for C10: a makedirs fault on an absent build directory is
swallowed and the CMake invocation is reached. -/
theorem makedirs_swallows_every_oserror_witness :
    pyStartswith "macosx-x86_64" "macosx" = true ∧
    faultWorld.makedirsFault sampleProduct.build_dir = true ∧
    fsLookup [] sampleProduct.build_dir = none ∧
    exec1 faultWorld [] (Stmt.tryMakedirs sampleProduct.build_dir) =
      .ok [] ∧
    (runStmts faultWorld
      (TensorFlowSwiftAPIs.buildProg sampleEnv sampleProduct
        "macosx-x86_64") []).1.take 3 =
      [Stmt.tryMakedirs sampleProduct.build_dir,
       Stmt.pushd sampleProduct.build_dir,
       Stmt.call
         (TensorFlowSwiftAPIs.cmakeConfigureArgs sampleEnv sampleProduct
           "libtensorflow.dylib") none] :=
  ⟨by decide, by decide, by decide,
   (makedirs_swallows_every_oserror sampleEnv sampleProduct "macosx-x86_64"
     faultWorld [] (by decide) (by decide) (by decide)).1,
   (makedirs_swallows_every_oserror sampleEnv sampleProduct "macosx-x86_64"
     faultWorld [] (by decide) (by decide) (by decide)).2⟩

/-- C6: A non-zero exit status from any invoked external tool aborts the
calling step: the failure propagates as `CalledProcessError` and no
subsequent command of the step is attempted.  Covered in turn: the CMake
configure invocation, the `cmake --build` invocation (in
`TensorFlowSwiftAPIs.build`), the configure script, and the bazel build (in
`TensorFlow.build`). -/
theorem failing_tool_aborts_step
    (env : Env) (p : Product) (host_target : String) (w : World) (fs : FS) :
    (pyStartswith host_target "macosx" = true →
      (w.exit (TensorFlowSwiftAPIs.cmakeConfigureArgs env p
          "libtensorflow.dylib") ≠ 0 →
        runStmts w (TensorFlowSwiftAPIs.buildProg env p host_target) fs =
          ([Stmt.tryMakedirs p.build_dir,
            Stmt.pushd p.build_dir,
            Stmt.call
              (TensorFlowSwiftAPIs.cmakeConfigureArgs env p
                "libtensorflow.dylib") none],
           .error (.calledProcessError
             (TensorFlowSwiftAPIs.cmakeConfigureArgs env p
               "libtensorflow.dylib")
             (w.exit (TensorFlowSwiftAPIs.cmakeConfigureArgs env p
               "libtensorflow.dylib"))))) ∧
      (w.exit (TensorFlowSwiftAPIs.cmakeConfigureArgs env p
          "libtensorflow.dylib") = 0 →
       w.exit [p.toolchain.cmake, "--build", p.build_dir] ≠ 0 →
        (runStmts w (TensorFlowSwiftAPIs.buildProg env p host_target)
            fs).1 =
          [Stmt.tryMakedirs p.build_dir,
           Stmt.pushd p.build_dir,
           Stmt.call
             (TensorFlowSwiftAPIs.cmakeConfigureArgs env p
               "libtensorflow.dylib") none,
           Stmt.call [p.toolchain.cmake, "--build", p.build_dir] none] ∧
        (runStmts w (TensorFlowSwiftAPIs.buildProg env p host_target)
            fs).2 =
          .error (.calledProcessError
            [p.toolchain.cmake, "--build", p.build_dir]
            (w.exit [p.toolchain.cmake, "--build", p.build_dir])))) ∧
    (w.exit [pjoin p.source_dir "configure"] ≠ 0 →
      runStmts w (TensorFlow.buildProg p host_target) fs =
        ([Stmt.call [pjoin p.source_dir "configure"] (some ["yes", ""])],
         .error (.calledProcessError [pjoin p.source_dir "configure"]
           (w.exit [pjoin p.source_dir "configure"])))) ∧
    (w.exit [pjoin p.source_dir "configure"] = 0 →
     w.exit (TensorFlow.bazelArgs p) ≠ 0 →
      runStmts w (TensorFlow.buildProg p host_target) fs =
        ([Stmt.call [pjoin p.source_dir "configure"] (some ["yes", ""]),
          Stmt.call (TensorFlow.bazelArgs p) none],
         .error (.calledProcessError (TensorFlow.bazelArgs p)
           (w.exit (TensorFlow.bazelArgs p))))) := by
  refine ⟨fun hm => ⟨fun h1 => ?_, fun h0 h2 => ?_⟩,
    fun hc => ?_, fun hc0 hb => ?_⟩
  · simp [TensorFlowSwiftAPIs.buildProg, hm, runStmts, exec1, h1]
  · constructor <;>
      simp [TensorFlowSwiftAPIs.buildProg, hm, runStmts, exec1, h0, h2]
  · simp [TensorFlow.buildProg, runStmts, exec1, hc]
  · simp [TensorFlow.buildProg, runStmts, exec1, hc0, hb]

/-- Witness for C6: four concrete worlds, each failing exactly one of the
four external tools. -/
theorem failing_tool_aborts_step_witness :
    ((failWorld (TensorFlowSwiftAPIs.cmakeConfigureArgs sampleEnv
        sampleProduct "libtensorflow.dylib")).exit
       (TensorFlowSwiftAPIs.cmakeConfigureArgs sampleEnv sampleProduct
         "libtensorflow.dylib") ≠ 0 ∧
     runStmts
       (failWorld (TensorFlowSwiftAPIs.cmakeConfigureArgs sampleEnv
         sampleProduct "libtensorflow.dylib"))
       (TensorFlowSwiftAPIs.buildProg sampleEnv sampleProduct
         "macosx-x86_64") [] =
       ([Stmt.tryMakedirs sampleProduct.build_dir,
         Stmt.pushd sampleProduct.build_dir,
         Stmt.call
           (TensorFlowSwiftAPIs.cmakeConfigureArgs sampleEnv sampleProduct
             "libtensorflow.dylib") none],
        .error (.calledProcessError
          (TensorFlowSwiftAPIs.cmakeConfigureArgs sampleEnv sampleProduct
            "libtensorflow.dylib")
          ((failWorld (TensorFlowSwiftAPIs.cmakeConfigureArgs sampleEnv
            sampleProduct "libtensorflow.dylib")).exit
            (TensorFlowSwiftAPIs.cmakeConfigureArgs sampleEnv sampleProduct
              "libtensorflow.dylib"))))) ∧
    ((runStmts
       (failWorld [sampleProduct.toolchain.cmake, "--build",
         sampleProduct.build_dir])
       (TensorFlowSwiftAPIs.buildProg sampleEnv sampleProduct
         "macosx-x86_64") []).1 =
       [Stmt.tryMakedirs sampleProduct.build_dir,
        Stmt.pushd sampleProduct.build_dir,
        Stmt.call
          (TensorFlowSwiftAPIs.cmakeConfigureArgs sampleEnv sampleProduct
            "libtensorflow.dylib") none,
        Stmt.call [sampleProduct.toolchain.cmake, "--build",
          sampleProduct.build_dir] none]) ∧
    (runStmts (failWorld [pjoin sampleProduct.source_dir "configure"])
       (TensorFlow.buildProg sampleProduct "macosx-x86_64") [] =
       ([Stmt.call [pjoin sampleProduct.source_dir "configure"]
           (some ["yes", ""])],
        .error (.calledProcessError
          [pjoin sampleProduct.source_dir "configure"]
          ((failWorld [pjoin sampleProduct.source_dir "configure"]).exit
            [pjoin sampleProduct.source_dir "configure"])))) ∧
    (runStmts (failWorld (TensorFlow.bazelArgs sampleProduct))
       (TensorFlow.buildProg sampleProduct "macosx-x86_64") [] =
       ([Stmt.call [pjoin sampleProduct.source_dir "configure"]
           (some ["yes", ""]),
         Stmt.call (TensorFlow.bazelArgs sampleProduct) none],
        .error (.calledProcessError (TensorFlow.bazelArgs sampleProduct)
          ((failWorld (TensorFlow.bazelArgs sampleProduct)).exit
            (TensorFlow.bazelArgs sampleProduct))))) :=
  ⟨⟨by decide,
    ((failing_tool_aborts_step sampleEnv sampleProduct "macosx-x86_64"
        (failWorld (TensorFlowSwiftAPIs.cmakeConfigureArgs sampleEnv
          sampleProduct "libtensorflow.dylib")) []).1 (by decide)).1
      (by decide)⟩,
   (((failing_tool_aborts_step sampleEnv sampleProduct "macosx-x86_64"
        (failWorld [sampleProduct.toolchain.cmake, "--build",
          sampleProduct.build_dir]) []).1 (by decide)).2
      (by decide) (by decide)).1,
   ((failing_tool_aborts_step sampleEnv sampleProduct "macosx-x86_64"
       (failWorld [pjoin sampleProduct.source_dir "configure"]) []).2).1
     (by decide),
   ((failing_tool_aborts_step sampleEnv sampleProduct "macosx-x86_64"
       (failWorld (TensorFlow.bazelArgs sampleProduct)) []).2).2
     (by decide) (by decide)⟩

end SwiftBuildSupport
